import Mathlib

/-!
# Dial, dynamic tooltip and curve of `src/main.cpp`

A shallow embedding of the dial widget (`WidgetPDial`), its value tooltip
(`DynTooltip`) and the curve section of `custom_graphics`.

Conventions of the embedding.

* C++ `double` and `float` quantities are exact rationals (`ℚ`); C++ `int`
  quantities are `Int` (no wrap-around).
* Mutable objects are records and every member function returns the updated
  record.  File-level and toolkit-level mutable state (`_recent`, the list of
  scheduled timeouts) is the record `Statics`.
* The FLTK primitives the source calls (`Fl_Valuator::value`,
  `Fl_Valuator::clamp`, `Fl::event_inside`, `Fl::add_timeout`,
  `Fl::remove_timeout`, `Fl_Widget::size`, `Fl_Widget::position`,
  `Fl_Window::show`, `Fl_Window::hide`, `Fl_Widget::do_callback`) follow the
  documented behaviour of the toolkit; `do_callback` is observed through a
  counter, no callback being registered in this program.
-/

namespace Yoshimi

/-! ## Helpers of the source -/

/-- Source `template<class T> T limit(T val, T min, T max)`, lines 12-16. -/
def limit (val min max : ℚ) : ℚ :=
  if val < min then min else (if val > max then max else val)

/-! ## Toolkit state -/

/-- Event codes the two `switch` statements distinguish; `FL_OTHER` stands for
every event code named in neither. -/
inductive Event where
  | FL_PUSH
  | FL_DRAG
  | FL_RELEASE
  | FL_MOUSEWHEEL
  | FL_ENTER
  | FL_LEAVE
  | FL_HIDE
  | FL_UNFOCUS
  | FL_OTHER
  deriving DecidableEq, Repr

/-- Data of the current event as the toolkit reports it: `Fl::event_x()`,
`Fl::event_y()`, `Fl::event_x_root()`, `Fl::event_y_root()`,
`Fl::event_state(FL_CTRL) != 0`, `Fl::event_button()`, `Fl::event_dy()`. -/
structure Pointer where
  event_x : Int
  event_y : Int
  event_x_root : Int
  event_y_root : Int
  ctrl : Bool
  event_button : Int
  event_dy : Int
  deriving DecidableEq, Repr

/-- Values supplied by the host toolkit: `Fl::h()`, `Fl_Tooltip::delay()`,
`Fl_Tooltip::hoverdelay()`. -/
structure Host where
  screen_h : Int
  delay : ℚ
  hoverdelay : ℚ
  deriving DecidableEq, Repr

/-- The two timeout callbacks of the source, `delayedShow` and `resetRecent`. -/
inductive TimeoutCb where
  | delayedShow
  | resetRecent
  deriving DecidableEq, Repr

/-- One scheduled timeout: delay, callback and the `void*` argument
(`none` is the null pointer, `some i` the tooltip instance `i`). -/
structure Timeout where
  delay : ℚ
  cb : TimeoutCb
  arg : Option Nat
  deriving DecidableEq, Repr

/-- Shared mutable state: the toolkit's timeout list and the file-level
`static bool _recent`. -/
structure Statics where
  timeouts : List Timeout
  recent : Bool
  deriving DecidableEq, Repr

/-- Toolkit `Fl::add_timeout(t, cb, argp)`. -/
def Statics.add_timeout (g : Statics) (t : ℚ) (cb : TimeoutCb) (argp : Option Nat) : Statics :=
  { g with timeouts := g.timeouts ++ [⟨t, cb, argp⟩] }

/-- Toolkit `Fl::remove_timeout(cb, argp)`: removes every timeout with this
callback whose argument equals `argp`, or every timeout with this callback when
`argp` is null (the default argument). -/
def Statics.remove_timeout (g : Statics) (cb : TimeoutCb) (argp : Option Nat) : Statics :=
  { g with timeouts := g.timeouts.filter (fun t => !(decide (t.cb = cb) && (decide (t.arg = argp) || argp.isNone))) }

/-- Number of pending `delayedShow` timeouts scheduled for instance `i`. -/
def Statics.pendingShow (g : Statics) (i : Nat) : Nat :=
  (g.timeouts.filter (fun t => decide (t.cb = TimeoutCb.delayedShow) && decide (t.arg = some i))).length

/-! ## DynTooltip -/

/-- Source `class DynTooltip`: its three data members, the identity `self` it
passes to the scheduler as `this`, and the observable part of its
`Fl_Menu_Window` base (shown flag, window position and size, redraw requests). -/
structure DynTooltip where
  self : Nat
  currentValue : ℚ
  onlyValue : Bool
  positioned : Bool
  shown : Bool
  wx : Int
  wy : Int
  ww : Int
  wh : Int
  redraws : Nat
  deriving DecidableEq, Repr

/-- Source constructor `DynTooltip::DynTooltip()`, lines 95-103: a 1x1 window,
hidden, `onlyValue = false`, `positioned = false`.  `currentValue` is not
initialised by the source and is therefore a parameter. -/
def DynTooltip.new (self : Nat) (currentValue : ℚ) : DynTooltip :=
  { self := self, currentValue := currentValue, onlyValue := false, positioned := false,
    shown := false, wx := 0, wy := 0, ww := 1, wh := 1, redraws := 0 }

/-- Source `DynTooltip::update()`, lines 71-75: `size(286, 200); redraw();`. -/
def DynTooltip.update (t : DynTooltip) : DynTooltip :=
  { t with ww := 286, wh := 200, redraws := t.redraws + 1 }

/-- Source `DynTooltip::reposition()`, lines 110-128. -/
def DynTooltip.reposition (t : DynTooltip) (host : Host) (p : Pointer) : DynTooltip :=
  if !t.positioned then
    let cursor_y := p.event_y_root
    if cursor_y + 20 + t.wh > host.screen_h then
      { t with wx := p.event_x_root, wy := cursor_y - 20 - t.wh, positioned := true }
    else
      { t with wx := p.event_x_root, wy := cursor_y + 20, positioned := true }
  else t

/-- Source `DynTooltip::dynshow(float timeout)`, lines 130-143. -/
def DynTooltip.dynshow (t : DynTooltip) (host : Host) (p : Pointer) (g : Statics) (timeout : ℚ) :
    DynTooltip × Statics :=
  if timeout ≤ 0 then
    let g1 := g.remove_timeout TimeoutCb.delayedShow (some t.self)
    let g2 := { g1 with recent := true }
    let t1 := t.reposition host p
    let t2 := t1.update
    ({ t2 with shown := true }, g2)
  else
    (t, g.add_timeout timeout TimeoutCb.delayedShow (some t.self))

/-- Source `DynTooltip::setValue(float val)`, lines 145-153. -/
def DynTooltip.setValue (t : DynTooltip) (val : ℚ) : DynTooltip :=
  if val ≠ t.currentValue then
    let t1 := { t with currentValue := val }
    if t1.positioned then t1.update else t1
  else t

/-- Source `DynTooltip::setOnlyValue(bool onlyval)`, lines 155-163. -/
def DynTooltip.setOnlyValue (t : DynTooltip) (onlyval : Bool) : DynTooltip :=
  if t.onlyValue ≠ onlyval then
    let t1 := { t with onlyValue := onlyval }
    if t1.positioned then t1.update else t1
  else t

/-- Source `DynTooltip::tipHandle(int event)`, lines 165-190. -/
def DynTooltip.tipHandle (t : DynTooltip) (host : Host) (p : Pointer) (g : Statics) (event : Event) :
    DynTooltip × Statics :=
  match event with
  | Event.FL_ENTER =>
      let g1 := g.remove_timeout TimeoutCb.resetRecent none
      let t1 := t.setOnlyValue false
      t1.dynshow host p g1 (if g1.recent then host.hoverdelay else host.delay)
  | Event.FL_PUSH | Event.FL_DRAG | Event.FL_MOUSEWHEEL =>
      let g1 := g.remove_timeout TimeoutCb.delayedShow none
      let g2 := g1.remove_timeout TimeoutCb.resetRecent none
      let t1 := t.setOnlyValue true
      t1.dynshow host p g2 0
  | Event.FL_LEAVE | Event.FL_RELEASE | Event.FL_HIDE =>
      let g1 := g.remove_timeout TimeoutCb.delayedShow none
      let g2 := g1.add_timeout host.hoverdelay TimeoutCb.resetRecent none
      ({ t with shown := false }, g2)
  | _ => (t, g)

/-- Source callback `delayedShow(void* dyntip)`, lines 86-89, run for tooltip `t`
with argument `arg`: a null argument does nothing; the tooltip itself is shown
at once; for another instance only the effect of its `dynshow(0)` on the shared
state is recorded. -/
def delayedShow (t : DynTooltip) (host : Host) (p : Pointer) (g : Statics) (arg : Option Nat) :
    DynTooltip × Statics :=
  match arg with
  | none => (t, g)
  | some i =>
      if i = t.self then t.dynshow host p g 0
      else (t, { (g.remove_timeout TimeoutCb.delayedShow (some i)) with recent := true })

/-- Source callback `resetRecent(void*)`, lines 91-93. -/
def resetRecent (g : Statics) : Statics :=
  { g with recent := false }

/-- The scheduler fires the pending timeout at index `i`: the entry leaves the
list and its callback runs.  An index past the end does nothing. -/
def fireTimeout (t : DynTooltip) (host : Host) (p : Pointer) (g : Statics) (i : Nat) :
    DynTooltip × Statics :=
  match g.timeouts.get? i with
  | none => (t, g)
  | some e =>
      let g1 := { g with timeouts := g.timeouts.eraseIdx i }
      match e.cb with
      | TimeoutCb.delayedShow => delayedShow t host p g1 e.arg
      | TimeoutCb.resetRecent => (t, resetRecent g1)

/-! ## WidgetPDial -/

/-- Source `class WidgetPDial : public Fl_Dial`: widget geometry, the valuator
range and value of the base class, `oldvalue`, the `when()` mask, the owned
tooltip, and two counters observing `do_callback()` and `value_damage()`. -/
structure WidgetPDial where
  x : Int
  y : Int
  w : Int
  h : Int
  minimum : ℚ
  maximum : ℚ
  value_ : ℚ
  oldvalue : ℚ
  when_ : Nat
  callbacks : Nat
  damages : Nat
  dyntip : DynTooltip
  deriving DecidableEq, Repr

/-- Source constructor `WidgetPDial::WidgetPDial`, lines 370-376: a valuator
with the toolkit defaults (value 0, minimum 0, `when()` = `FL_WHEN_CHANGED`),
a new tooltip, and `maximum(127)`.  `oldvalue` is not initialised by the source
and is a parameter, as is the tooltip's `currentValue`. -/
def WidgetPDial.new (x y w h : Int) (oldvalue tipValue : ℚ) : WidgetPDial :=
  { x := x, y := y, w := w, h := h, minimum := 0, maximum := 127, value_ := 0,
    oldvalue := oldvalue, when_ := 1, callbacks := 0, damages := 0,
    dyntip := DynTooltip.new 0 tipValue }

/-- Source getter `double WidgetPDial::value()`, lines 360-363. -/
def WidgetPDial.value (d : WidgetPDial) : ℚ := d.value_

/-- Toolkit `Fl_Widget::do_callback()`, observed through a counter. -/
def WidgetPDial.do_callback (d : WidgetPDial) : WidgetPDial :=
  { d with callbacks := d.callbacks + 1 }

/-- Toolkit `Fl_Valuator::value_damage()`, observed through a counter. -/
def WidgetPDial.value_damage (d : WidgetPDial) : WidgetPDial :=
  { d with damages := d.damages + 1 }

/-- Toolkit `Fl_Valuator::value(double v)`: stores `v` as it is (the toolkit
does not clamp here) and requests a redraw when the value differs. -/
def WidgetPDial.Fl_Valuator_value (d : WidgetPDial) (v : ℚ) : WidgetPDial :=
  if v = d.value_ then d else ({ d with value_ := v }).value_damage

/-- Toolkit `Fl_Valuator::clamp(double v)`:
`(v<min)==(min<=max) ? min : (v>max)==(min<=max) ? max : v`. -/
def WidgetPDial.clamp (d : WidgetPDial) (v : ℚ) : ℚ :=
  if decide (v < d.minimum) = decide (d.minimum ≤ d.maximum) then d.minimum
  else if decide (v > d.maximum) = decide (d.minimum ≤ d.maximum) then d.maximum
  else v

/-- Source setter `void WidgetPDial::value(double val)`, lines 353-358 (the
setter and the getter share the name `value` in the source). -/
def WidgetPDial.valueSet (d : WidgetPDial) (val : ℚ) : WidgetPDial :=
  let d1 := d.Fl_Valuator_value val
  let t1 := d1.dyntip.setValue val
  let t2 := t1.setOnlyValue true
  { d1 with dyntip := t2 }

/-- Toolkit `Fl::event_inside(const Fl_Widget*)`. -/
def WidgetPDial.event_inside (d : WidgetPDial) (p : Pointer) : Bool :=
  let mx := p.event_x - d.x
  let my := p.event_y - d.y
  decide (mx ≥ 0) && decide (mx < d.w) && decide (my ≥ 0) && decide (my < d.h)

/-- The combined displacement `my` of source lines 399-401. -/
def WidgetPDial.dragDelta (d : WidgetPDial) (p : Pointer) : Int :=
  let my := -((p.event_y - d.y) * 2 - d.h)
  let mx := ((p.event_x - d.x) * 2 - d.w)
  my + mx

/-- The `dragsize` of source lines 403-407 (push and drag). -/
def dragsize (p : Pointer) : ℚ :=
  let dragsize : ℚ := 200
  if p.ctrl then dragsize * 10
  else if p.event_button = 2 then dragsize * 3
  else dragsize

/-- The `dragsize` of source lines 425-427 (mouse wheel). -/
def wheelsize (p : Pointer) : ℚ :=
  let dragsize : ℚ := 25
  if p.ctrl then dragsize * 5 else dragsize

/-- Source lines 450-452, the common tail of `WidgetPDial::handle`:
`dyntip->setValue(value()); dyntip->tipHandle(event); return res;`. -/
def WidgetPDial.finish (d : WidgetPDial) (host : Host) (p : Pointer) (g : Statics) (event : Event)
    (res : Int) : Int × WidgetPDial × Statics :=
  let t1 := d.dyntip.setValue d.value
  let r := t1.tipHandle host p g event
  (res, { d with dyntip := r.1 }, r.2)

/-- Source lines 393-416, the body shared by `FL_PUSH` and `FL_DRAG`.
`Fl::belowmouse(this)` concerns other widgets only and is left out. -/
def WidgetPDial.pushDrag (d : WidgetPDial) (p : Pointer) (event : Event) : WidgetPDial :=
  let min := d.minimum
  let max := d.maximum
  let d1 :=
    if event = Event.FL_PUSH then
      let d0 := d.do_callback
      { d0 with oldvalue := d0.value }
    else d
  let my := d1.dragDelta p
  let dragsize := dragsize p
  if p.event_button ≠ 3 then
    let v := d1.oldvalue + (my : ℚ) / dragsize * (max - min)
    let v := d1.clamp v
    let d2 := d1.valueSet v
    let d3 := d2.value_damage
    if d3.when_ ≠ 0 then d3.do_callback else d3
  else d1

/-- Source lines 424-431, the mouse-wheel body for a pointer inside the dial. -/
def WidgetPDial.wheel (d : WidgetPDial) (p : Pointer) : WidgetPDial :=
  let min := d.minimum
  let max := d.maximum
  let my := - p.event_dy
  let dragsize := wheelsize p
  let d1 := d.valueSet (limit (d.value + (my : ℚ) / dragsize * (max - min)) min max)
  let d2 := d1.value_damage
  if d2.when_ ≠ 0 then d2.do_callback else d2

/-- Source `int WidgetPDial::handle(int event)`, lines 383-453.  The result is
the returned `res`, the dial and the shared state after the call. -/
def WidgetPDial.handle (d : WidgetPDial) (host : Host) (p : Pointer) (g : Statics) (event : Event) :
    Int × WidgetPDial × Statics :=
  match event with
  | Event.FL_PUSH | Event.FL_DRAG => (d.pushDrag p event).finish host p g event 1
  | Event.FL_MOUSEWHEEL =>
      if !d.event_inside p then (1, d, g)
      else (d.wheel p).finish host p g event 1
  | Event.FL_ENTER => d.finish host p g event 1
  | Event.FL_HIDE | Event.FL_UNFOCUS => d.finish host p g event 0
  | Event.FL_LEAVE => d.finish host p g event 1
  | Event.FL_RELEASE =>
      (if d.when_ = 0 then d.do_callback else d).finish host p g event 1
  | Event.FL_OTHER => d.finish host p g event 0

/-- A dial together with the shared state it runs in. -/
structure DialWorld where
  dial : WidgetPDial
  statics : Statics
  deriving DecidableEq, Repr

/-- One delivered event: `handle` applied to the dial of the world. -/
def DialWorld.deliver (s : DialWorld) (host : Host) (ev : Event × Pointer) : DialWorld :=
  let r := s.dial.handle host ev.2 s.statics ev.1
  ⟨r.2.1, r.2.2⟩

/-- A sequence of delivered events, in order. -/
def DialWorld.deliverAll (s : DialWorld) (host : Host) (evs : List (Event × Pointer)) : DialWorld :=
  evs.foldl (fun s ev => s.deliver host ev) s

/-! ## Tooltip runs -/

/-- A tooltip together with the shared state it runs in. -/
structure TipWorld where
  tip : DynTooltip
  statics : Statics
  deriving DecidableEq, Repr

/-- What can happen to a tooltip: an event passed to `tipHandle`, a call of
`setValue` or `setOnlyValue`, or the firing of the pending timeout at an index. -/
inductive TipAction where
  | handle (event : Event) (p : Pointer)
  | setValue (v : ℚ)
  | setOnlyValue (b : Bool)
  | fire (i : Nat) (p : Pointer)
  deriving DecidableEq, Repr

/-- One action applied to a tooltip world. -/
def TipWorld.step (s : TipWorld) (host : Host) (a : TipAction) : TipWorld :=
  match a with
  | TipAction.handle event p =>
      let r := s.tip.tipHandle host p s.statics event
      ⟨r.1, r.2⟩
  | TipAction.setValue v => ⟨s.tip.setValue v, s.statics⟩
  | TipAction.setOnlyValue b => ⟨s.tip.setOnlyValue b, s.statics⟩
  | TipAction.fire i p =>
      let r := fireTimeout s.tip host p s.statics i
      ⟨r.1, r.2⟩

/-- A sequence of actions, in order. -/
def TipWorld.run (s : TipWorld) (host : Host) (as : List TipAction) : TipWorld :=
  as.foldl (fun s a => s.step host a) s

/-- A freshly constructed tooltip with an empty scheduler and `_recent` false. -/
def TipWorld.fresh (self : Nat) (currentValue : ℚ) : TipWorld :=
  ⟨DynTooltip.new self currentValue, ⟨[], false⟩⟩

/-! ## The curve of `custom_graphics` -/

/-- C++ conversion `(int)val`: truncation towards zero. -/
def truncate (val : ℚ) : Int :=
  if 0 ≤ val then Int.floor val else Int.ceil val

/-- A vertical coordinate of the curve section, symbolic where the source
evaluates a power and a logarithm: `plain v` is the number `v`,
`logPower50 cy p` is `cy - ry * log10(power<50>(p))` and `logPowf cy p` is
`cy - ry * log10(powf(0.05, p))`. -/
inductive YCoord where
  | plain (v : Int)
  | logPower50 (cy : Int) (p : ℚ)
  | logPowf (cy : Int) (p : ℚ)
  deriving DecidableEq, Repr

/-- Whether a coordinate needs a power or a logarithm. -/
def YCoord.transcendental : YCoord → Bool
  | YCoord.plain _ => false
  | YCoord.logPower50 _ _ => true
  | YCoord.logPowf _ _ => true

/-- The exponent a coordinate was computed from, if any. -/
def YCoord.exponent : YCoord → Option ℚ
  | YCoord.plain _ => none
  | YCoord.logPower50 _ p => some p
  | YCoord.logPowf _ p => some p

/-- The segment drawn as response curve: from `(xa, ya)` to `(xb, yb)`. -/
structure CurveSegment where
  xa : Int
  ya : YCoord
  xb : Int
  yb : YCoord
  deriving DecidableEq, Repr

/-- Plot geometry of `custom_graphics`, source lines 194-210: `x0`, `_w` and
`cy` for a panel of size `W` x `H` (`margin = 28`, so `_h = 100`, `_w = 200`,
`x0 = W / 2 - 128 + 35`, `y0 = H - 21`, `cy = y0 - _h / 2`). -/
def plotGeometry (W H : Int) : Int × Int × Int :=
  let margin : Int := 28
  let _h : Int := 128 - margin
  let _w : Int := 256 - margin * 2
  let x0 : Int := Int.tdiv W 2 - Int.tdiv 256 2 + 35
  let y0 : Int := H - 21
  let cy : Int := y0 - Int.tdiv _h 2
  (x0, _w, cy)

/-- Source `custom_graphics(float val, int W, int H)`, the function-curve
section, lines 271-309: the segment drawn for `val`. -/
def custom_graphics (val : ℚ) (W H : Int) : CurveSegment :=
  let x0 := (plotGeometry W H).1
  let _w := (plotGeometry W H).2.1
  let cy := (plotGeometry W H).2.2
  if truncate val = 0 then
    ⟨x0, YCoord.plain cy, x0 + _w, YCoord.plain cy⟩
  else
    let p : ℚ := ((truncate val : ℚ) / 64) * 3
    ⟨x0, YCoord.logPower50 cy p, x0 + _w, YCoord.logPowf cy p⟩

/-! ## Concrete objects used in the examples -/

/-- The dial built in `main`: `new WidgetPDial(20, 40, 300, 100)`, range
[0,127], value 0, with the uninitialised members taken as 0. -/
def mainDial : WidgetPDial := WidgetPDial.new 20 40 300 100 0 0

/-- A host with a usable screen height of 1000 and the toolkit's default
tooltip delays (1 second, 0.2 seconds). -/
def exampleHost : Host := ⟨1000, 1, 1 / 5⟩

/-- Empty scheduler, `_recent` false. -/
def noTimeouts : Statics := ⟨[], false⟩

/-- A pointer at widget coordinates `(ex, ey)` (screen coordinates the same),
with the given Ctrl state, button and wheel delta. -/
def pointerAt (ex ey : Int) (ctrl : Bool) (button dy : Int) : Pointer :=
  ⟨ex, ey, ex, ey, ctrl, button, dy⟩

/-- The dial of `main` configured to notify on release only, `when(0)`. -/
def releaseDial : WidgetPDial := { mainDial with when_ := 0 }

/-! ## Auxiliary definitions for the proofs -/

/-- Geometry, range and notify mode of a dial. -/
def WidgetPDial.config (d : WidgetPDial) : Int × Int × Int × Int × ℚ × ℚ × Nat :=
  (d.x, d.y, d.w, d.h, d.minimum, d.maximum, d.when_)

/-- The dial after `handle`, tooltip aside: the dial the `switch` leaves. -/
def WidgetPDial.afterSwitch (d : WidgetPDial) (p : Pointer) (event : Event) : WidgetPDial :=
  match event with
  | Event.FL_PUSH | Event.FL_DRAG => d.pushDrag p event
  | Event.FL_MOUSEWHEEL => if !d.event_inside p then d else d.wheel p
  | Event.FL_RELEASE => if d.when_ = 0 then d.do_callback else d
  | _ => d

/-! ## Lemmas on the dial -/

theorem limit_eq_of_mem (v lo hi : ℚ) (h1 : lo ≤ v) (h2 : v ≤ hi) : limit v lo hi = v := by
  unfold limit
  rw [if_neg (not_lt.mpr h1), if_neg (not_lt.mpr h2)]

theorem limit_mem (v lo hi : ℚ) (h : lo ≤ hi) : lo ≤ limit v lo hi ∧ limit v lo hi ≤ hi := by
  unfold limit
  split_ifs with h1 h2
  · exact ⟨le_refl _, h⟩
  · exact ⟨h, le_refl _⟩
  · exact ⟨not_lt.mp h1, not_lt.mp h2⟩

theorem clamp_eq_limit (d : WidgetPDial) (v : ℚ) (h : d.minimum ≤ d.maximum) :
    d.clamp v = limit v d.minimum d.maximum := by
  unfold WidgetPDial.clamp limit
  simp only [h, decide_True, decide_eq_true_eq]

theorem clamp_congr (d e : WidgetPDial) (v : ℚ) (h1 : e.minimum = d.minimum)
    (h2 : e.maximum = d.maximum) : e.clamp v = d.clamp v := by
  unfold WidgetPDial.clamp
  rw [h1, h2]

theorem Fl_Valuator_value_value (d : WidgetPDial) (v : ℚ) : (d.Fl_Valuator_value v).value_ = v := by
  unfold WidgetPDial.Fl_Valuator_value WidgetPDial.value_damage
  split_ifs with h
  · exact h.symm
  · rfl

theorem valueSet_value (d : WidgetPDial) (v : ℚ) : (d.valueSet v).value = v := by
  unfold WidgetPDial.valueSet WidgetPDial.value
  exact Fl_Valuator_value_value d v

theorem setValue_same (t : DynTooltip) (v : ℚ) (h : t.currentValue = v) : t.setValue v = t := by
  unfold DynTooltip.setValue
  rw [if_neg (by simp [h])]

theorem setValue_currentValue (t : DynTooltip) (v : ℚ) : (t.setValue v).currentValue = v := by
  unfold DynTooltip.setValue DynTooltip.update
  dsimp only
  split_ifs with h1 h2
  · rfl
  · rfl
  · exact (not_not.mp h1).symm

theorem setOnlyValue_same (t : DynTooltip) (b : Bool) (h : t.onlyValue = b) :
    t.setOnlyValue b = t := by
  unfold DynTooltip.setOnlyValue
  rw [if_neg (by simp [h])]

theorem setOnlyValue_onlyValue (t : DynTooltip) (b : Bool) : (t.setOnlyValue b).onlyValue = b := by
  unfold DynTooltip.setOnlyValue DynTooltip.update
  dsimp only
  split_ifs with h1 h2
  · rfl
  · rfl
  · exact not_not.mp h1

theorem setOnlyValue_currentValue (t : DynTooltip) (b : Bool) :
    (t.setOnlyValue b).currentValue = t.currentValue := by
  unfold DynTooltip.setOnlyValue DynTooltip.update
  dsimp only
  split_ifs <;> rfl

theorem valueSet_idem (d : WidgetPDial) (v : ℚ) : (d.valueSet v).valueSet v = d.valueSet v := by
  have hv : (d.valueSet v).value_ = v := valueSet_value d v
  have ht : (d.valueSet v).dyntip.currentValue = v := by
    unfold WidgetPDial.valueSet
    simp only [setOnlyValue_currentValue, setValue_currentValue]
  have ho : (d.valueSet v).dyntip.onlyValue = true := by
    unfold WidgetPDial.valueSet
    simp only [setOnlyValue_onlyValue]
  generalize d.valueSet v = e at hv ht ho
  unfold WidgetPDial.valueSet WidgetPDial.Fl_Valuator_value
  dsimp only
  rw [if_pos hv.symm, setValue_same _ _ ht, setOnlyValue_same _ _ ho]

theorem valueSet_eq (d : WidgetPDial) (v : ℚ) :
    d.valueSet v =
      { d with value_ := v, damages := (if v = d.value_ then d.damages else d.damages + 1),
               dyntip := (d.dyntip.setValue v).setOnlyValue true } := by
  unfold WidgetPDial.valueSet WidgetPDial.Fl_Valuator_value WidgetPDial.value_damage
  dsimp only
  split_ifs with h
  · subst h
    rfl
  · rfl

theorem dragDelta_cast (d : WidgetPDial) (p : Pointer) :
    ((d.dragDelta p : Int) : ℚ) =
      2 * ((p.event_x : ℚ) - (d.x + (d.w : ℚ) / 2)) - 2 * ((p.event_y : ℚ) - (d.y + (d.h : ℚ) / 2)) := by
  unfold WidgetPDial.dragDelta
  push_cast
  ring

theorem pushDrag_value (d : WidgetPDial) (p : Pointer) (event : Event) :
    (d.pushDrag p event).value =
      if p.event_button ≠ 3 then
        d.clamp ((if event = Event.FL_PUSH then d.value else d.oldvalue)
          + (d.dragDelta p : ℚ) / dragsize p * (d.maximum - d.minimum))
      else d.value := by
  unfold WidgetPDial.pushDrag
  simp only [valueSet_eq, WidgetPDial.value_damage, WidgetPDial.do_callback, WidgetPDial.value,
    WidgetPDial.clamp, WidgetPDial.dragDelta]
  split_ifs <;> rfl

theorem pushDrag_oldvalue (d : WidgetPDial) (p : Pointer) (event : Event) :
    (d.pushDrag p event).oldvalue = if event = Event.FL_PUSH then d.value else d.oldvalue := by
  unfold WidgetPDial.pushDrag
  simp only [valueSet_eq, WidgetPDial.value_damage, WidgetPDial.do_callback, WidgetPDial.value]
  split_ifs <;> rfl

theorem pushDrag_callbacks (d : WidgetPDial) (p : Pointer) (event : Event) :
    (d.pushDrag p event).callbacks =
      d.callbacks + (if event = Event.FL_PUSH then 1 else 0)
        + (if p.event_button ≠ 3 ∧ d.when_ ≠ 0 then 1 else 0) := by
  unfold WidgetPDial.pushDrag
  simp only [valueSet_eq, WidgetPDial.value_damage, WidgetPDial.do_callback, WidgetPDial.value]
  split_ifs <;> simp_all

theorem pushDrag_config (d : WidgetPDial) (p : Pointer) (event : Event) :
    (d.pushDrag p event).config = d.config := by
  unfold WidgetPDial.pushDrag WidgetPDial.config
  simp only [valueSet_eq, WidgetPDial.value_damage, WidgetPDial.do_callback, WidgetPDial.value]
  split_ifs <;> rfl

theorem wheel_value (d : WidgetPDial) (p : Pointer) :
    (d.wheel p).value =
      limit (d.value + ((- p.event_dy : Int) : ℚ) / wheelsize p * (d.maximum - d.minimum))
        d.minimum d.maximum := by
  unfold WidgetPDial.wheel
  simp only [valueSet_eq, WidgetPDial.value_damage, WidgetPDial.do_callback, WidgetPDial.value]
  split_ifs <;> rfl

theorem wheel_oldvalue (d : WidgetPDial) (p : Pointer) : (d.wheel p).oldvalue = d.oldvalue := by
  unfold WidgetPDial.wheel
  simp only [valueSet_eq, WidgetPDial.value_damage, WidgetPDial.do_callback, WidgetPDial.value]
  split_ifs <;> rfl

theorem wheel_config (d : WidgetPDial) (p : Pointer) : (d.wheel p).config = d.config := by
  unfold WidgetPDial.wheel WidgetPDial.config
  simp only [valueSet_eq, WidgetPDial.value_damage, WidgetPDial.do_callback, WidgetPDial.value]
  split_ifs <;> rfl

theorem handle_value (d : WidgetPDial) (host : Host) (p : Pointer) (g : Statics) (event : Event) :
    (d.handle host p g event).2.1.value = (d.afterSwitch p event).value := by
  unfold WidgetPDial.handle WidgetPDial.afterSwitch
  cases event <;> dsimp only <;> (try split_ifs) <;> rfl

theorem handle_oldvalue (d : WidgetPDial) (host : Host) (p : Pointer) (g : Statics) (event : Event) :
    (d.handle host p g event).2.1.oldvalue = (d.afterSwitch p event).oldvalue := by
  unfold WidgetPDial.handle WidgetPDial.afterSwitch
  cases event <;> dsimp only <;> (try split_ifs) <;> rfl

theorem handle_callbacks (d : WidgetPDial) (host : Host) (p : Pointer) (g : Statics) (event : Event) :
    (d.handle host p g event).2.1.callbacks = (d.afterSwitch p event).callbacks := by
  unfold WidgetPDial.handle WidgetPDial.afterSwitch
  cases event <;> dsimp only <;> (try split_ifs) <;> rfl

theorem afterSwitch_config (d : WidgetPDial) (p : Pointer) (event : Event) :
    (d.afterSwitch p event).config = d.config := by
  unfold WidgetPDial.afterSwitch
  cases event <;> dsimp only <;> (try split_ifs) <;>
    first | rfl | exact pushDrag_config d p _ | exact wheel_config d p

theorem handle_config (d : WidgetPDial) (host : Host) (p : Pointer) (g : Statics) (event : Event) :
    (d.handle host p g event).2.1.config = d.config := by
  rw [← afterSwitch_config d p event]
  unfold WidgetPDial.handle WidgetPDial.afterSwitch
  cases event <;> dsimp only <;> (try split_ifs) <;> rfl

theorem config_fields (d e : WidgetPDial) (h : e.config = d.config) :
    e.x = d.x ∧ e.y = d.y ∧ e.w = d.w ∧ e.h = d.h ∧ e.minimum = d.minimum ∧
      e.maximum = d.maximum ∧ e.when_ = d.when_ := by
  unfold WidgetPDial.config at h
  simp only [Prod.mk.injEq] at h
  exact h

theorem clamp_mem (d : WidgetPDial) (v : ℚ) (h : d.minimum ≤ d.maximum) :
    d.minimum ≤ d.clamp v ∧ d.clamp v ≤ d.maximum := by
  rw [clamp_eq_limit d v h]
  exact limit_mem v _ _ h

theorem afterSwitch_oldvalue (d : WidgetPDial) (p : Pointer) (event : Event)
    (h : event ≠ Event.FL_PUSH) : (d.afterSwitch p event).oldvalue = d.oldvalue := by
  unfold WidgetPDial.afterSwitch
  cases event <;> dsimp only <;> (try split_ifs) <;>
    first
    | rfl
    | exact absurd rfl h
    | exact wheel_oldvalue d p
    | (rw [pushDrag_oldvalue]; rfl)

theorem deliver_config (s : DialWorld) (host : Host) (ev : Event × Pointer) :
    (s.deliver host ev).dial.config = s.dial.config :=
  handle_config s.dial host ev.2 s.statics ev.1

theorem deliverAll_config (host : Host) (evs : List (Event × Pointer)) (s : DialWorld) :
    (s.deliverAll host evs).dial.config = s.dial.config := by
  induction evs generalizing s with
  | nil => rfl
  | cons ev rest ih =>
      have h := ih (s.deliver host ev)
      rw [deliver_config] at h
      exact h

theorem deliver_oldvalue (s : DialWorld) (host : Host) (ev : Event × Pointer)
    (h : ev.1 ≠ Event.FL_PUSH) : (s.deliver host ev).dial.oldvalue = s.dial.oldvalue := by
  unfold DialWorld.deliver
  dsimp only
  rw [handle_oldvalue, afterSwitch_oldvalue _ _ _ h]

theorem deliverAll_oldvalue (host : Host) (evs : List (Event × Pointer)) (s : DialWorld)
    (h : ∀ ev ∈ evs, ev.1 ≠ Event.FL_PUSH) :
    (s.deliverAll host evs).dial.oldvalue = s.dial.oldvalue := by
  induction evs generalizing s with
  | nil => rfl
  | cons ev rest ih =>
      have h1 := ih (s.deliver host ev) (fun e he => h e (List.mem_cons_of_mem _ he))
      rw [deliver_oldvalue s host ev (h ev (List.mem_cons_self _ _))] at h1
      exact h1

theorem deliver_drag_callbacks (s : DialWorld) (host : Host) (ev : Event × Pointer)
    (hw : s.dial.when_ = 0) (h : ev.1 = Event.FL_DRAG) :
    (s.deliver host ev).dial.callbacks = s.dial.callbacks := by
  unfold DialWorld.deliver
  dsimp only
  rw [handle_callbacks, h]
  unfold WidgetPDial.afterSwitch
  dsimp only
  rw [pushDrag_callbacks]
  simp [hw]

theorem deliverAll_drag_callbacks (host : Host) (evs : List (Event × Pointer)) (s : DialWorld)
    (hw : s.dial.when_ = 0) (h : ∀ ev ∈ evs, ev.1 = Event.FL_DRAG) :
    (s.deliverAll host evs).dial.callbacks = s.dial.callbacks := by
  induction evs generalizing s with
  | nil => rfl
  | cons ev rest ih =>
      have hc := (config_fields _ _ (deliver_config s host ev)).2.2.2.2.2.2
      have h1 := ih (s.deliver host ev) (hc.trans hw)
        (fun e he => h e (List.mem_cons_of_mem _ he))
      rw [deliver_drag_callbacks s host ev hw (h ev (List.mem_cons_self _ _))] at h1
      exact h1

/-! ## Claims on the dial -/

/-- C1 (counterexample): on the dial of `main` (range [0,127]) the setter called
with 200 stores 200, which is above the maximum and differs from 200 clamped
into the range. -/
theorem C1_setter_stores_out_of_range :
    mainDial.minimum < mainDial.maximum ∧
      (mainDial.valueSet 200).value = 200 ∧
      ¬ ((mainDial.valueSet 200).value ≤ mainDial.maximum) ∧
      (mainDial.valueSet 200).value ≠ limit 200 mainDial.minimum mainDial.maximum := by
  rw [valueSet_value]
  simp only [mainDial, WidgetPDial.new, limit]
  norm_num

/-- C1 (amended): the setter stores `v` as it is and leaves the range alone, so
the getter returns `v`; a second call with the same `v` changes nothing; and
when `v` already lies in [minimum, maximum] the stored value lies in the range
and equals `v` clamped into it. -/
theorem C1_setter_stores_value (d : WidgetPDial) (v : ℚ) :
    (d.valueSet v).value = v ∧
      (d.valueSet v).minimum = d.minimum ∧ (d.valueSet v).maximum = d.maximum ∧
      (d.valueSet v).valueSet v = d.valueSet v ∧
      (d.minimum ≤ v → v ≤ d.maximum →
        d.minimum ≤ (d.valueSet v).value ∧ (d.valueSet v).value ≤ d.maximum ∧
          (d.valueSet v).value = limit v d.minimum d.maximum) := by
  refine ⟨valueSet_value d v, ?_, ?_, valueSet_idem d v, ?_⟩
  · rw [valueSet_eq]
  · rw [valueSet_eq]
  · intro h1 h2
    rw [valueSet_value, limit_eq_of_mem v _ _ h1 h2]
    exact ⟨h1, h2, rfl⟩

/-- C1 (amended), instance: the dial of `main` set to 64. -/
theorem C1_setter_stores_value_witness :
    (mainDial.valueSet 64).value = 64 ∧
      mainDial.minimum ≤ (mainDial.valueSet 64).value ∧
      (mainDial.valueSet 64).value ≤ mainDial.maximum :=
  have h := C1_setter_stores_value mainDial 64
  have h2 := h.2.2.2.2 (by norm_num [mainDial, WidgetPDial.new])
    (by norm_num [mainDial, WidgetPDial.new])
  ⟨h.1, h2.1, h2.2.1⟩

/-- C2: for a dial with minimum < maximum and minimum ≤ value ≤ maximum, and for
every event, pointer data, stored anchor and shared state, `handle` leaves the
range as it is and the value inside [minimum, maximum]. -/
theorem C2_handle_range_invariant (d : WidgetPDial) (host : Host) (p : Pointer) (g : Statics)
    (event : Event) (hmm : d.minimum < d.maximum) (hlo : d.minimum ≤ d.value)
    (hhi : d.value ≤ d.maximum) :
    (d.handle host p g event).2.1.minimum = d.minimum ∧
      (d.handle host p g event).2.1.maximum = d.maximum ∧
      (d.handle host p g event).2.1.minimum ≤ (d.handle host p g event).2.1.value ∧
      (d.handle host p g event).2.1.value ≤ (d.handle host p g event).2.1.maximum := by
  obtain ⟨-, -, -, -, h5, h6, -⟩ := config_fields _ _ (handle_config d host p g event)
  refine ⟨h5, h6, ?_⟩
  rw [h5, h6, handle_value]
  unfold WidgetPDial.afterSwitch
  cases event <;> dsimp only
  case FL_PUSH =>
    rw [pushDrag_value]
    by_cases hb : p.event_button ≠ 3
    · rw [if_pos hb]
      exact clamp_mem d _ hmm.le
    · rw [if_neg hb]
      exact ⟨hlo, hhi⟩
  case FL_DRAG =>
    rw [pushDrag_value]
    by_cases hb : p.event_button ≠ 3
    · rw [if_pos hb]
      exact clamp_mem d _ hmm.le
    · rw [if_neg hb]
      exact ⟨hlo, hhi⟩
  case FL_MOUSEWHEEL =>
    split_ifs
    · exact ⟨hlo, hhi⟩
    · rw [wheel_value]
      exact limit_mem _ _ _ hmm.le
  case FL_RELEASE =>
    split_ifs
    · exact ⟨hlo, hhi⟩
    · exact ⟨hlo, hhi⟩
  all_goals exact ⟨hlo, hhi⟩

/-- C2, instance: a drag far to the right on the dial of `main`. -/
theorem C2_handle_range_invariant_witness :
    (mainDial.handle exampleHost (pointerAt 900 90 false 1 0) noTimeouts Event.FL_DRAG).2.1.minimum
        ≤ (mainDial.handle exampleHost (pointerAt 900 90 false 1 0) noTimeouts Event.FL_DRAG).2.1.value ∧
      (mainDial.handle exampleHost (pointerAt 900 90 false 1 0) noTimeouts Event.FL_DRAG).2.1.value
        ≤ (mainDial.handle exampleHost (pointerAt 900 90 false 1 0) noTimeouts Event.FL_DRAG).2.1.maximum :=
  (C2_handle_range_invariant mainDial exampleHost (pointerAt 900 90 false 1 0) noTimeouts
    Event.FL_DRAG (by norm_num [mainDial, WidgetPDial.new])
    (by norm_num [mainDial, WidgetPDial.new, WidgetPDial.value])
    (by norm_num [mainDial, WidgetPDial.new, WidgetPDial.value])).2.2

/-- C3: after a press on a dial with value `a`, the anchor is `a`; after any
further events none of which is a press, a drag with a button other than 3 sets
the value to the toolkit clamp of `a + delta / sensitivity * (max - min)`, where
`delta` is twice the horizontal minus twice the vertical pointer offset from the
centre `(x + w/2, y + h/2)` and `sensitivity` is 2000 with Ctrl held, else 600
with button 2, else 200; for minimum ≤ maximum that clamp is `limit` into
[minimum, maximum]. -/
theorem C3_drag_value_formula (d : WidgetPDial) (host : Host) (g : Statics) (p0 : Pointer)
    (evs : List (Event × Pointer)) (pd : Pointer)
    (hev : ∀ ev ∈ evs, ev.1 ≠ Event.FL_PUSH) (hb : pd.event_button ≠ 3) :
    let a := d.value
    let s1 := (DialWorld.mk d g).deliver host (Event.FL_PUSH, p0)
    let s3 := (s1.deliverAll host evs).deliver host (Event.FL_DRAG, pd)
    let delta : ℚ := 2 * ((pd.event_x : ℚ) - (d.x + (d.w : ℚ) / 2))
      - 2 * ((pd.event_y : ℚ) - (d.y + (d.h : ℚ) / 2))
    let sensitivity : ℚ :=
      if pd.ctrl then 200 * 10 else if pd.event_button = 2 then 200 * 3 else 200
    s1.dial.oldvalue = a ∧
      s3.dial.value = d.clamp (a + delta / sensitivity * (d.maximum - d.minimum)) ∧
      (d.minimum ≤ d.maximum →
        s3.dial.value = limit (a + delta / sensitivity * (d.maximum - d.minimum))
          d.minimum d.maximum ∧
        d.minimum ≤ s3.dial.value ∧ s3.dial.value ≤ d.maximum) := by
  intro a s1 s3 delta sensitivity
  have h1 : s1.dial.oldvalue = a := by
    show ((DialWorld.mk d g).deliver host (Event.FL_PUSH, p0)).dial.oldvalue = d.value
    unfold DialWorld.deliver
    dsimp only
    rw [handle_oldvalue]
    unfold WidgetPDial.afterSwitch
    dsimp only
    rw [pushDrag_oldvalue, if_pos rfl]
  have hc1 : s1.dial.config = d.config := deliver_config _ host _
  have hc2 : (s1.deliverAll host evs).dial.config = d.config :=
    (deliverAll_config host evs s1).trans hc1
  have ho2 : (s1.deliverAll host evs).dial.oldvalue = a :=
    (deliverAll_oldvalue host evs s1 hev).trans h1
  obtain ⟨hx, hy, hw, hh, hmin, hmax, -⟩ := config_fields _ _ hc2
  have h3 : s3.dial.value = d.clamp (a + delta / sensitivity * (d.maximum - d.minimum)) := by
    show ((s1.deliverAll host evs).deliver host (Event.FL_DRAG, pd)).dial.value = _
    unfold DialWorld.deliver
    dsimp only
    rw [handle_value]
    unfold WidgetPDial.afterSwitch
    dsimp only
    rw [pushDrag_value, if_pos hb, if_neg (by decide), ho2, dragDelta_cast, hx, hy, hw, hh,
      hmin, hmax, clamp_congr d _ _ hmin hmax]
    rfl
  refine ⟨h1, h3, ?_⟩
  intro hle
  rw [h3, clamp_eq_limit d _ hle]
  exact ⟨rfl, limit_mem _ _ _ hle⟩

/-- C3, instance (the scenario of the claim): the dial of `main`, range
[0,127], value 0; a press at the centre (170, 90), a first drag to (200, 90),
then a drag to (370, 90) with the primary button and no modifier, which is
`delta = 400`, gives 127. -/
theorem C3_drag_value_formula_witness :
    ((((DialWorld.mk mainDial noTimeouts).deliver exampleHost
        (Event.FL_PUSH, pointerAt 170 90 false 1 0)).deliverAll exampleHost
        [(Event.FL_DRAG, pointerAt 200 90 false 1 0)]).deliver exampleHost
        (Event.FL_DRAG, pointerAt 370 90 false 1 0)).dial.value = 127 := by
  have h := (C3_drag_value_formula mainDial exampleHost noTimeouts (pointerAt 170 90 false 1 0)
    [(Event.FL_DRAG, pointerAt 200 90 false 1 0)]
    (pointerAt 370 90 false 1 0) (by simp) (by decide)).2.1
  rw [h]
  simp only [mainDial, WidgetPDial.new, pointerAt, WidgetPDial.clamp, WidgetPDial.value]
  norm_num

/-- C4 (counterexample): a wheel event at (0, 0), outside the dial of `main`
(which spans x 20..319, y 40..139), makes `handle` return 1, not 0. -/
theorem C4_wheel_outside_returns_one :
    mainDial.event_inside (pointerAt 0 0 false 1 (-1)) = false ∧
      (mainDial.handle exampleHost (pointerAt 0 0 false 1 (-1)) noTimeouts Event.FL_MOUSEWHEEL).1 = 1 ∧
      (mainDial.handle exampleHost (pointerAt 0 0 false 1 (-1)) noTimeouts Event.FL_MOUSEWHEEL).1 ≠ 0 := by
  decide

/-- C4 (amended): for every dial state and every wheel event whose pointer is
outside the dial, `handle` returns 1 and leaves the dial (value and tooltip
included) and the shared state unchanged. -/
theorem C4_wheel_outside_ignored (d : WidgetPDial) (host : Host) (p : Pointer) (g : Statics)
    (hout : d.event_inside p = false) :
    d.handle host p g Event.FL_MOUSEWHEEL = (1, d, g) := by
  unfold WidgetPDial.handle
  simp only [hout, Bool.not_false, if_true]

/-- C4 (amended), instance: the wheel event at (0, 0) on the dial of `main`. -/
theorem C4_wheel_outside_ignored_witness :
    mainDial.handle exampleHost (pointerAt 0 0 false 1 (-1)) noTimeouts Event.FL_MOUSEWHEEL
      = (1, mainDial, noTimeouts) :=
  C4_wheel_outside_ignored mainDial exampleHost (pointerAt 0 0 false 1 (-1)) noTimeouts (by decide)

/-- C5 (counterexample): with `when() == 0`, a press at the centre of the dial
already invokes the callback once, and the gesture press, release invokes it
twice. -/
theorem C5_press_invokes_callback :
    releaseDial.when_ = 0 ∧ releaseDial.callbacks = 0 ∧
      ((DialWorld.mk releaseDial noTimeouts).deliver exampleHost
        (Event.FL_PUSH, pointerAt 170 90 false 1 0)).dial.callbacks = 1 ∧
      (((DialWorld.mk releaseDial noTimeouts).deliver exampleHost
        (Event.FL_PUSH, pointerAt 170 90 false 1 0)).deliver exampleHost
        (Event.FL_RELEASE, pointerAt 170 90 false 1 0)).dial.callbacks = 2 := by
  refine ⟨rfl, rfl, ?_, ?_⟩
  · unfold DialWorld.deliver
    dsimp only
    rw [handle_callbacks]
    unfold WidgetPDial.afterSwitch
    dsimp only
    rw [pushDrag_callbacks]
    decide
  · unfold DialWorld.deliver
    dsimp only
    rw [handle_callbacks]
    unfold WidgetPDial.afterSwitch
    dsimp only
    have hw : (releaseDial.handle exampleHost (pointerAt 170 90 false 1 0) noTimeouts
        Event.FL_PUSH).2.1.when_ = 0 :=
      (config_fields _ _ (handle_config releaseDial exampleHost
        (pointerAt 170 90 false 1 0) noTimeouts Event.FL_PUSH)).2.2.2.2.2.2
    rw [if_pos hw]
    unfold WidgetPDial.do_callback
    dsimp only
    rw [handle_callbacks]
    unfold WidgetPDial.afterSwitch
    dsimp only
    rw [pushDrag_callbacks]
    decide

/-- C5 (amended): for a dial with `when() == 0` and every gesture of one press,
any number of drags and one release, the callback is invoked exactly twice:
once at the press, never at a drag, and once at the release. -/
theorem C5_notify_press_and_release (d : WidgetPDial) (host : Host) (g : Statics) (p0 : Pointer)
    (drags : List (Event × Pointer)) (pr : Pointer)
    (hw : d.when_ = 0) (hd : ∀ ev ∈ drags, ev.1 = Event.FL_DRAG) :
    let s1 := (DialWorld.mk d g).deliver host (Event.FL_PUSH, p0)
    let s2 := s1.deliverAll host drags
    let s3 := s2.deliver host (Event.FL_RELEASE, pr)
    s1.dial.callbacks = d.callbacks + 1 ∧
      s2.dial.callbacks = s1.dial.callbacks ∧
      s3.dial.callbacks = s2.dial.callbacks + 1 ∧
      s3.dial.callbacks = d.callbacks + 2 := by
  intro s1 s2 s3
  have h1 : s1.dial.callbacks = d.callbacks + 1 := by
    show ((DialWorld.mk d g).deliver host (Event.FL_PUSH, p0)).dial.callbacks = _
    unfold DialWorld.deliver
    dsimp only
    rw [handle_callbacks]
    unfold WidgetPDial.afterSwitch
    dsimp only
    rw [pushDrag_callbacks]
    simp [hw]
  have hw1 : s1.dial.when_ = 0 :=
    ((config_fields _ _ (deliver_config (DialWorld.mk d g) host _)).2.2.2.2.2.2).trans hw
  have h2 : s2.dial.callbacks = s1.dial.callbacks :=
    deliverAll_drag_callbacks host drags s1 hw1 hd
  have hw2 : s2.dial.when_ = 0 :=
    ((config_fields _ _ (deliverAll_config host drags s1)).2.2.2.2.2.2).trans hw1
  have h3 : s3.dial.callbacks = s2.dial.callbacks + 1 := by
    show (s2.deliver host (Event.FL_RELEASE, pr)).dial.callbacks = _
    unfold DialWorld.deliver
    dsimp only
    rw [handle_callbacks]
    unfold WidgetPDial.afterSwitch
    dsimp only
    rw [if_pos hw2]
    rfl
  refine ⟨h1, h2, h3, ?_⟩
  rw [h3, h2, h1]

/-- C5 (amended), instance: press, two drags, release on the dial of `main`
with `when(0)`: two callbacks. -/
theorem C5_notify_press_and_release_witness :
    ((((DialWorld.mk releaseDial noTimeouts).deliver exampleHost
        (Event.FL_PUSH, pointerAt 170 90 false 1 0)).deliverAll exampleHost
        [(Event.FL_DRAG, pointerAt 180 90 false 1 0), (Event.FL_DRAG, pointerAt 190 90 false 1 0)]).deliver
        exampleHost (Event.FL_RELEASE, pointerAt 190 90 false 1 0)).dial.callbacks
      = releaseDial.callbacks + 2 :=
  (C5_notify_press_and_release releaseDial exampleHost noTimeouts (pointerAt 170 90 false 1 0)
    [(Event.FL_DRAG, pointerAt 180 90 false 1 0), (Event.FL_DRAG, pointerAt 190 90 false 1 0)]
    (pointerAt 190 90 false 1 0) rfl (by simp)).2.2.2

theorem drag_value_of_mem (d : WidgetPDial) (host : Host) (p : Pointer) (g : Statics)
    (hmm : d.minimum ≤ d.maximum) (hb : p.event_button ≠ 3)
    (h1 : d.minimum ≤ d.oldvalue + (d.dragDelta p : ℚ) / dragsize p * (d.maximum - d.minimum))
    (h2 : d.oldvalue + (d.dragDelta p : ℚ) / dragsize p * (d.maximum - d.minimum) ≤ d.maximum) :
    (d.handle host p g Event.FL_DRAG).2.1.value =
      d.oldvalue + (d.dragDelta p : ℚ) / dragsize p * (d.maximum - d.minimum) := by
  rw [handle_value]
  unfold WidgetPDial.afterSwitch
  dsimp only
  rw [pushDrag_value, if_pos hb, if_neg (by decide), clamp_eq_limit d _ hmm,
    limit_eq_of_mem _ _ _ h1 h2]

theorem wheel_value_of_mem (d : WidgetPDial) (host : Host) (p : Pointer) (g : Statics)
    (hin : d.event_inside p = true)
    (h1 : d.minimum ≤ d.value + ((- p.event_dy : Int) : ℚ) / wheelsize p * (d.maximum - d.minimum))
    (h2 : d.value + ((- p.event_dy : Int) : ℚ) / wheelsize p * (d.maximum - d.minimum) ≤ d.maximum) :
    (d.handle host p g Event.FL_MOUSEWHEEL).2.1.value =
      d.value + ((- p.event_dy : Int) : ℚ) / wheelsize p * (d.maximum - d.minimum) := by
  rw [handle_value]
  unfold WidgetPDial.afterSwitch
  dsimp only
  rw [hin]
  simp only [Bool.not_true, Bool.false_eq_true, if_false]
  rw [wheel_value, limit_eq_of_mem _ _ _ h1 h2]

/-- C6 (counterexample): on the dial of `main` (range [0,127], value and anchor
0) a drag to (370, 90) with the primary button gives 127 without Ctrl (clamped)
and 127/5 with Ctrl, which is not a tenth of 127; an in-bounds wheel event with
delta -50 gives 127 without Ctrl (clamped) and 254/5 with Ctrl, which is not a
fifth of 127. -/
theorem C6_clamped_change_not_scaled :
    (mainDial.handle exampleHost (pointerAt 370 90 false 1 0) noTimeouts Event.FL_DRAG).2.1.value = 127 ∧
      (mainDial.handle exampleHost (pointerAt 370 90 true 1 0) noTimeouts Event.FL_DRAG).2.1.value
        = 127 / 5 ∧
      (mainDial.handle exampleHost (pointerAt 370 90 true 1 0) noTimeouts Event.FL_DRAG).2.1.value
          - mainDial.value
        ≠ ((mainDial.handle exampleHost (pointerAt 370 90 false 1 0) noTimeouts Event.FL_DRAG).2.1.value
          - mainDial.value) / 10 ∧
      mainDial.event_inside (pointerAt 30 50 false 1 (-50)) = true ∧
      (mainDial.handle exampleHost (pointerAt 30 50 false 1 (-50)) noTimeouts Event.FL_MOUSEWHEEL).2.1.value
        = 127 ∧
      (mainDial.handle exampleHost (pointerAt 30 50 true 1 (-50)) noTimeouts Event.FL_MOUSEWHEEL).2.1.value
        = 254 / 5 ∧
      (mainDial.handle exampleHost (pointerAt 30 50 true 1 (-50)) noTimeouts Event.FL_MOUSEWHEEL).2.1.value
          - mainDial.value
        ≠ ((mainDial.handle exampleHost (pointerAt 30 50 false 1 (-50)) noTimeouts
            Event.FL_MOUSEWHEEL).2.1.value - mainDial.value) / 5 := by
  have e1 : (mainDial.handle exampleHost (pointerAt 370 90 false 1 0) noTimeouts
      Event.FL_DRAG).2.1.value = 127 := by
    rw [handle_value]
    unfold WidgetPDial.afterSwitch
    dsimp only
    rw [pushDrag_value]
    simp only [mainDial, WidgetPDial.new, pointerAt, WidgetPDial.clamp, WidgetPDial.value,
      WidgetPDial.dragDelta, dragsize]
    norm_num
  have e2 : (mainDial.handle exampleHost (pointerAt 370 90 true 1 0) noTimeouts
      Event.FL_DRAG).2.1.value = 127 / 5 := by
    rw [handle_value]
    unfold WidgetPDial.afterSwitch
    dsimp only
    rw [pushDrag_value]
    simp only [mainDial, WidgetPDial.new, pointerAt, WidgetPDial.clamp, WidgetPDial.value,
      WidgetPDial.dragDelta, dragsize]
    norm_num
  have e3 : (mainDial.handle exampleHost (pointerAt 30 50 false 1 (-50)) noTimeouts
      Event.FL_MOUSEWHEEL).2.1.value = 127 := by
    rw [handle_value]
    unfold WidgetPDial.afterSwitch
    dsimp only
    rw [if_neg (by decide), wheel_value]
    simp only [mainDial, WidgetPDial.new, pointerAt, limit, WidgetPDial.value, wheelsize]
    norm_num
  have e4 : (mainDial.handle exampleHost (pointerAt 30 50 true 1 (-50)) noTimeouts
      Event.FL_MOUSEWHEEL).2.1.value = 254 / 5 := by
    rw [handle_value]
    unfold WidgetPDial.afterSwitch
    dsimp only
    rw [if_neg (by decide), wheel_value]
    simp only [mainDial, WidgetPDial.new, pointerAt, limit, WidgetPDial.value, wheelsize]
    norm_num
  have e0 : mainDial.value = 0 := rfl
  refine ⟨e1, e2, ?_, by decide, e3, e4, ?_⟩
  · rw [e1, e2, e0]
    norm_num
  · rw [e3, e4, e0]
    norm_num

/-- C6 (amended): let the range satisfy minimum ≤ maximum.  For a drag with a
button other than 2 and 3, when the anchor and the unmodified result
`anchor + delta/200*(max-min)` both lie in [minimum, maximum] (nothing is
clamped), the displacement of the value from the anchor with Ctrl held is 1/10
of the displacement without it; with button 2, under the same condition for
`anchor + delta/600*(max-min)`, it is 3/10.  For an in-bounds wheel event, when
the value and the unmodified result `value - dy/25*(max-min)` both lie in
[minimum, maximum], the value change with Ctrl held is 1/5 of the change
without it. -/
theorem C6_sensitivity_scaling_unclamped (d : WidgetPDial) (host : Host) (g : Statics)
    (p : Pointer) (hmm : d.minimum ≤ d.maximum) :
    (p.event_button ≠ 2 → p.event_button ≠ 3 →
      d.minimum ≤ d.oldvalue → d.oldvalue ≤ d.maximum →
      d.minimum ≤ d.oldvalue + (d.dragDelta p : ℚ) / 200 * (d.maximum - d.minimum) →
      d.oldvalue + (d.dragDelta p : ℚ) / 200 * (d.maximum - d.minimum) ≤ d.maximum →
      (d.handle host { p with ctrl := true } g Event.FL_DRAG).2.1.value - d.oldvalue
        = ((d.handle host { p with ctrl := false } g Event.FL_DRAG).2.1.value - d.oldvalue) / 10) ∧
    (p.event_button = 2 →
      d.minimum ≤ d.oldvalue → d.oldvalue ≤ d.maximum →
      d.minimum ≤ d.oldvalue + (d.dragDelta p : ℚ) / 600 * (d.maximum - d.minimum) →
      d.oldvalue + (d.dragDelta p : ℚ) / 600 * (d.maximum - d.minimum) ≤ d.maximum →
      (d.handle host { p with ctrl := true } g Event.FL_DRAG).2.1.value - d.oldvalue
        = ((d.handle host { p with ctrl := false } g Event.FL_DRAG).2.1.value - d.oldvalue)
            * (3 / 10)) ∧
    (d.event_inside p = true →
      d.minimum ≤ d.value → d.value ≤ d.maximum →
      d.minimum ≤ d.value + ((- p.event_dy : Int) : ℚ) / 25 * (d.maximum - d.minimum) →
      d.value + ((- p.event_dy : Int) : ℚ) / 25 * (d.maximum - d.minimum) ≤ d.maximum →
      (d.handle host { p with ctrl := true } g Event.FL_MOUSEWHEEL).2.1.value - d.value
        = ((d.handle host { p with ctrl := false } g Event.FL_MOUSEWHEEL).2.1.value - d.value) / 5) := by
  refine ⟨?_, ?_, ?_⟩
  · intro hb2 hb3 ha1 ha2 h1 h2
    have hc : dragsize { p with ctrl := true } = 2000 := by
      simp only [dragsize, if_true]
      norm_num
    have hn : dragsize { p with ctrl := false } = 200 := by
      simp only [dragsize, Bool.false_eq_true, if_false, if_neg hb2]
    have hd : ∀ b : Bool, d.dragDelta { p with ctrl := b } = d.dragDelta p := fun _ => rfl
    have e : (d.dragDelta p : ℚ) / 2000 * (d.maximum - d.minimum)
        = ((d.dragDelta p : ℚ) / 200 * (d.maximum - d.minimum)) / 10 := by ring
    rw [drag_value_of_mem d host { p with ctrl := true } g hmm hb3
        (by rw [hc, hd, e]; linarith) (by rw [hc, hd, e]; linarith),
      drag_value_of_mem d host { p with ctrl := false } g hmm hb3
        (by rw [hn, hd]; exact h1) (by rw [hn, hd]; exact h2), hc, hn, hd true, hd false]
    ring
  · intro hb2 ha1 ha2 h1 h2
    have hb3 : p.event_button ≠ 3 := by rw [hb2]; decide
    have hc : dragsize { p with ctrl := true } = 2000 := by
      simp only [dragsize, if_true]
      norm_num
    have hn : dragsize { p with ctrl := false } = 600 := by
      simp only [dragsize, Bool.false_eq_true, if_false, if_pos hb2]
      norm_num
    have hd : ∀ b : Bool, d.dragDelta { p with ctrl := b } = d.dragDelta p := fun _ => rfl
    have e : (d.dragDelta p : ℚ) / 2000 * (d.maximum - d.minimum)
        = ((d.dragDelta p : ℚ) / 600 * (d.maximum - d.minimum)) * (3 / 10) := by ring
    rw [drag_value_of_mem d host { p with ctrl := true } g hmm hb3
        (by rw [hc, hd, e]; linarith) (by rw [hc, hd, e]; linarith),
      drag_value_of_mem d host { p with ctrl := false } g hmm hb3
        (by rw [hn, hd]; exact h1) (by rw [hn, hd]; exact h2), hc, hn, hd true, hd false]
    ring
  · intro hin ha1 ha2 h1 h2
    have hc : wheelsize { p with ctrl := true } = 125 := by
      simp only [wheelsize, if_true]
      norm_num
    have hn : wheelsize { p with ctrl := false } = 25 := by
      simp only [wheelsize, Bool.false_eq_true, if_false]
    have e : ((- p.event_dy : Int) : ℚ) / 125 * (d.maximum - d.minimum)
        = (((- p.event_dy : Int) : ℚ) / 25 * (d.maximum - d.minimum)) / 5 := by ring
    rw [wheel_value_of_mem d host { p with ctrl := true } g hin
        (by rw [hc]; show d.minimum ≤ d.value + ((- p.event_dy : Int) : ℚ) / 125 * _
            rw [e]; linarith)
        (by rw [hc]; show d.value + ((- p.event_dy : Int) : ℚ) / 125 * _ ≤ _
            rw [e]; linarith),
      wheel_value_of_mem d host { p with ctrl := false } g hin
        (by rw [hn]; exact h1) (by rw [hn]; exact h2), hc, hn]
    show d.value + ((- p.event_dy : Int) : ℚ) / 125 * (d.maximum - d.minimum) - d.value
      = (d.value + ((- p.event_dy : Int) : ℚ) / 25 * (d.maximum - d.minimum) - d.value) / 5
    ring

/-- C6 (amended), instance: on the dial of `main` a drag to (180, 90)
(`delta = 20`) and an in-bounds wheel event with delta -5, neither clamped. -/
theorem C6_sensitivity_scaling_unclamped_witness :
    ((mainDial.handle exampleHost { pointerAt 180 90 false 1 (-5) with ctrl := true } noTimeouts
        Event.FL_DRAG).2.1.value - mainDial.oldvalue
      = ((mainDial.handle exampleHost { pointerAt 180 90 false 1 (-5) with ctrl := false } noTimeouts
        Event.FL_DRAG).2.1.value - mainDial.oldvalue) / 10) ∧
    ((mainDial.handle exampleHost { pointerAt 180 90 false 1 (-5) with ctrl := true } noTimeouts
        Event.FL_MOUSEWHEEL).2.1.value - mainDial.value
      = ((mainDial.handle exampleHost { pointerAt 180 90 false 1 (-5) with ctrl := false } noTimeouts
        Event.FL_MOUSEWHEEL).2.1.value - mainDial.value) / 5) := by
  have h := C6_sensitivity_scaling_unclamped mainDial exampleHost noTimeouts
    (pointerAt 180 90 false 1 (-5)) (by norm_num [mainDial, WidgetPDial.new])
  refine ⟨h.1 (by decide) (by decide) ?_ ?_ ?_ ?_, h.2.2 (by decide) ?_ ?_ ?_ ?_⟩ <;>
    simp only [mainDial, WidgetPDial.new, pointerAt, WidgetPDial.dragDelta, WidgetPDial.value] <;>
    norm_num

/-! ## Lemmas on the curve -/

theorem truncate_eq_zero_iff (val : ℚ) : truncate val = 0 ↔ (-1 < val ∧ val < 1) := by
  unfold truncate
  split_ifs with h
  · rw [Int.floor_eq_zero_iff]
    constructor
    · intro hm
      exact ⟨by linarith [hm.1], hm.2⟩
    · intro hm
      exact ⟨h, hm.2⟩
  · rw [Int.ceil_eq_zero_iff]
    have h0 : val < 0 := not_le.mp h
    constructor
    · intro hm
      exact ⟨hm.1, by linarith⟩
    · intro hm
      exact ⟨hm.1, h0.le⟩

/-! ## Claims on the tooltip and the curve -/

/-- C7 (evaluation at the failing input): on a freshly constructed tooltip, with
the toolkit's default delays, two `FL_ENTER` events in a row leave two pending
`delayedShow` timeouts for that instance; the first enter leaves one. -/
theorem C7_enter_twice_two_pending :
    ((TipWorld.fresh 0 0).run exampleHost
        [TipAction.handle Event.FL_ENTER (pointerAt 100 100 false 0 0)]).statics.pendingShow 0 = 1 ∧
      ((TipWorld.fresh 0 0).run exampleHost
        [TipAction.handle Event.FL_ENTER (pointerAt 100 100 false 0 0),
         TipAction.handle Event.FL_ENTER (pointerAt 100 100 false 0 0)]).statics.pendingShow 0 = 2 := by
  have hd : ¬ ((1 : ℚ) ≤ 0) := by norm_num
  constructor <;>
    simp [TipWorld.run, TipWorld.step, TipWorld.fresh, DynTooltip.new, DynTooltip.tipHandle,
      DynTooltip.setOnlyValue, DynTooltip.dynshow, Statics.remove_timeout, Statics.add_timeout,
      Statics.pendingShow, exampleHost, hd]

/-- C8 (evaluation at the failing input): a freshly constructed tooltip receives
a press at screen position (100, 100) and then a leave.  After the leave the
overlay is hidden and `positioned` is still true.  A `setValue` on the hidden
overlay then resizes and redraws it (the redraw count goes from 1 to 2), and a
later press at (500, 500) shows the overlay at the place of the first session,
(100, 120), not near the pointer. -/
theorem C8_positioned_after_leave :
    ((TipWorld.fresh 0 0).run exampleHost
        [TipAction.handle Event.FL_PUSH (pointerAt 100 100 false 1 0),
         TipAction.handle Event.FL_LEAVE (pointerAt 100 100 false 1 0)]).tip.shown = false ∧
      ((TipWorld.fresh 0 0).run exampleHost
        [TipAction.handle Event.FL_PUSH (pointerAt 100 100 false 1 0),
         TipAction.handle Event.FL_LEAVE (pointerAt 100 100 false 1 0)]).tip.positioned = true ∧
      ((TipWorld.fresh 0 0).run exampleHost
        [TipAction.handle Event.FL_PUSH (pointerAt 100 100 false 1 0),
         TipAction.handle Event.FL_LEAVE (pointerAt 100 100 false 1 0)]).tip.redraws = 1 ∧
      ((TipWorld.fresh 0 0).run exampleHost
        [TipAction.handle Event.FL_PUSH (pointerAt 100 100 false 1 0),
         TipAction.handle Event.FL_LEAVE (pointerAt 100 100 false 1 0),
         TipAction.setValue 5]).tip.shown = false ∧
      ((TipWorld.fresh 0 0).run exampleHost
        [TipAction.handle Event.FL_PUSH (pointerAt 100 100 false 1 0),
         TipAction.handle Event.FL_LEAVE (pointerAt 100 100 false 1 0),
         TipAction.setValue 5]).tip.redraws = 2 ∧
      ((TipWorld.fresh 0 0).run exampleHost
        [TipAction.handle Event.FL_PUSH (pointerAt 100 100 false 1 0),
         TipAction.handle Event.FL_LEAVE (pointerAt 100 100 false 1 0),
         TipAction.handle Event.FL_PUSH (pointerAt 500 500 false 1 0)]).tip.shown = true ∧
      ((TipWorld.fresh 0 0).run exampleHost
        [TipAction.handle Event.FL_PUSH (pointerAt 100 100 false 1 0),
         TipAction.handle Event.FL_LEAVE (pointerAt 100 100 false 1 0),
         TipAction.handle Event.FL_PUSH (pointerAt 500 500 false 1 0)]).tip.wx = 100 ∧
      ((TipWorld.fresh 0 0).run exampleHost
        [TipAction.handle Event.FL_PUSH (pointerAt 100 100 false 1 0),
         TipAction.handle Event.FL_LEAVE (pointerAt 100 100 false 1 0),
         TipAction.handle Event.FL_PUSH (pointerAt 500 500 false 1 0)]).tip.wy = 120 := by
  refine ⟨?_, ?_, ?_, ?_, ?_, ?_, ?_, ?_⟩ <;>
    simp [TipWorld.run, TipWorld.step, TipWorld.fresh, DynTooltip.new, DynTooltip.tipHandle,
      DynTooltip.setOnlyValue, DynTooltip.setValue, DynTooltip.dynshow, DynTooltip.reposition,
      DynTooltip.update, exampleHost, pointerAt]

/-- C9 (evaluation at the failing input): the first immediate show of a freshly
constructed tooltip, pointer at screen position (100, 900), usable screen
height 1000.  The check runs with the height 1 the window has before `update()`
resizes it, so the overlay is put below the pointer at (100, 920) and is then
displayed 200 high: its bottom edge 1120 is past the screen height, while with
the displayed height `900 + 20 + 200 > 1000` asks for the place above the
pointer, y = 680. -/
theorem C9_first_show_below_screen :
    (DynTooltip.new 0 0).wh = 1 ∧
      ((DynTooltip.new 0 0).dynshow exampleHost (pointerAt 100 900 false 1 0) noTimeouts 0).1.shown
        = true ∧
      ((DynTooltip.new 0 0).dynshow exampleHost (pointerAt 100 900 false 1 0) noTimeouts 0).1.wx
        = 100 ∧
      ((DynTooltip.new 0 0).dynshow exampleHost (pointerAt 100 900 false 1 0) noTimeouts 0).1.wy
        = 920 ∧
      ((DynTooltip.new 0 0).dynshow exampleHost (pointerAt 100 900 false 1 0) noTimeouts 0).1.wh
        = 200 ∧
      ¬ (900 + 20 +
          ((DynTooltip.new 0 0).dynshow exampleHost (pointerAt 100 900 false 1 0) noTimeouts 0).1.wh
          ≤ exampleHost.screen_h) ∧
      ((DynTooltip.new 0 0).dynshow exampleHost (pointerAt 100 900 false 1 0) noTimeouts 0).1.wy
        ≠ 900 - 20 -
          ((DynTooltip.new 0 0).dynshow exampleHost (pointerAt 100 900 false 1 0) noTimeouts 0).1.wh ∧
      ((DynTooltip.new 0 0).dynshow exampleHost (pointerAt 100 900 false 1 0) noTimeouts 0).1.wy
        + ((DynTooltip.new 0 0).dynshow exampleHost (pointerAt 100 900 false 1 0) noTimeouts 0).1.wh
        > exampleHost.screen_h := by
  simp [DynTooltip.new, DynTooltip.dynshow, DynTooltip.reposition, DynTooltip.update, exampleHost,
    pointerAt]

/-- C10: the value truncates to 0 exactly when it lies strictly between -1 and
1; then the curve drawn is the segment from `(x0, cy)` to `(x0 + plotWidth, cy)`
with plain coordinates (no power, no logarithm), `plotWidth` being 200;
otherwise both end points are computed from the exponent
`(truncate(value) / 64) * 3`; and for value 64 that exponent is 3. -/
theorem C10_curve_degeneracy_and_exponent (val : ℚ) (W H : Int) :
    (truncate val = 0 ↔ (-1 < val ∧ val < 1)) ∧
      (plotGeometry W H).2.1 = 200 ∧
      (truncate val = 0 →
        custom_graphics val W H =
          ⟨(plotGeometry W H).1, YCoord.plain (plotGeometry W H).2.2,
            (plotGeometry W H).1 + (plotGeometry W H).2.1, YCoord.plain (plotGeometry W H).2.2⟩ ∧
        (custom_graphics val W H).ya.transcendental = false ∧
        (custom_graphics val W H).yb.transcendental = false) ∧
      (truncate val ≠ 0 →
        (custom_graphics val W H).ya.exponent = some (((truncate val : ℚ) / 64) * 3) ∧
        (custom_graphics val W H).yb.exponent = some (((truncate val : ℚ) / 64) * 3)) ∧
      (custom_graphics 64 W H).ya.exponent = some 3 ∧
      (custom_graphics 64 W H).yb.exponent = some 3 := by
  have h64 : truncate 64 = 64 := by
    unfold truncate
    rw [if_pos (by norm_num)]
    exact Int.floor_intCast (64 : Int)
  refine ⟨truncate_eq_zero_iff val, rfl, ?_, ?_, ?_, ?_⟩
  · intro h
    unfold custom_graphics
    simp only [h, if_true, YCoord.transcendental, and_self]
  · intro h
    unfold custom_graphics
    simp only [h, if_false, YCoord.exponent, and_self]
  · unfold custom_graphics
    simp only [h64, YCoord.exponent]
    norm_num
  · unfold custom_graphics
    simp only [h64, YCoord.exponent]
    norm_num

/-- C10, instance: value 1/2 on a 286 x 197 panel gives the flat segment from
(50, 126) to (250, 126). -/
theorem C10_curve_degeneracy_and_exponent_witness :
    custom_graphics (1 / 2) 286 197 = ⟨50, YCoord.plain 126, 250, YCoord.plain 126⟩ :=
  ((C10_curve_degeneracy_and_exponent (1 / 2) 286 197).2.2.1
    ((C10_curve_degeneracy_and_exponent (1 / 2) 286 197).1.mpr (by norm_num))).1

end Yoshimi
